import Mathlib

/-!
# yeeeeey: audio delivery pipeline

A shallow embedding of `main.go`: the container demuxer (`makeOGGBuffer`),
the connection lifecycle (`voiceState`, `joinVC`, `leaveVC`), the playback
streamer (`play`) and the request routine (`do`).

The Go program talks to two libraries that are not part of the repository:
the Discord client (session state, voice transport) and the Ogg packet
decoder.  Their behaviour is taken as a parameter (`Discord`, `OggLib`);
every call the program makes on the voice transport is recorded, in order,
in the session's `trace`.  `log.Printf` and `time.Sleep` have no influence on
control flow and are left out.
-/

namespace Yeeeeey

/-! ## Go error values -/

/-- Go `error` values as the program builds and inspects them. -/
inductive GoError where
  /-- the sentinel `io.EOF` -/
  | EOF : GoError
  /-- an error with a message and nothing to unwrap: `errors.New`, or
  `fmt.Errorf` without a `%w` verb -/
  | errorf (msg : String) : GoError
  /-- the value of `fmt.Errorf(pre + "%w", cause)` -/
  | wrap (pre : String) (cause : GoError) : GoError
  deriving DecidableEq, Repr

namespace GoError

/-- The method `err.Error()`. -/
def Error : GoError → String
  | EOF => "EOF"
  | errorf msg => msg
  | wrap pre cause => pre ++ cause.Error

/-- The function `errors.Unwrap(err)`. -/
def Unwrap : GoError → Option GoError
  | wrap _ cause => some cause
  | _ => none

/-- The function `errors.Is(err, target)`: `err` or some error of its unwrap
chain equals `target`. -/
def Is : GoError → GoError → Bool
  | wrap pre cause, target => decide (wrap pre cause = target) || Is cause target
  | EOF, target => decide (EOF = target)
  | errorf msg, target => decide (errorf msg = target)

end GoError

deriving instance DecidableEq for Except

/-! ## Data model -/

/-- A codec packet: an opaque byte payload. -/
abbrev Frame := List Nat

/-- The fields of `discordgo.VoiceConnection` the program reads. -/
structure VoiceConnection where
  GuildID : String
  ChannelID : String
  deriving DecidableEq, Repr

/-- The fields of `discordgo.VoiceState` the program reads. -/
structure VoiceState where
  UserID : String
  ChannelID : String
  deriving DecidableEq, Repr

/-- The field of `discordgo.Guild` the program reads. -/
structure Guild where
  VoiceStates : List VoiceState
  deriving DecidableEq, Repr

/-- The fields of `discordgo.MessageCreate` that `do` reads. -/
structure MessageCreate where
  AuthorID : String
  GuildID : String
  deriving DecidableEq, Repr

/-- Calls made on the voice transport, and the entry marker of `leaveVC`. -/
inductive Event where
  /-- the call `s.ChannelVoiceJoin(guildID, vcID, false, true)` -/
  | ChannelVoiceJoin (guildID vcID : String) : Event
  /-- the call `conn.Speaking(b)` -/
  | Speaking (conn : VoiceConnection) (b : Bool) : Event
  /-- the channel send `conn.OpusSend <- buff` -/
  | OpusSend (conn : VoiceConnection) (buff : Frame) : Event
  /-- the call `conn.Disconnect()` -/
  | Disconnect (conn : VoiceConnection) : Event
  /-- marks that `leaveVC(guildID)` was entered; it stands for no transport
  call and only makes the invocation visible in the trace -/
  | leaveVCEntered (guildID : String) : Event
  deriving DecidableEq, Repr

/-- The map `dg.VoiceConnections`, keyed by guild identifier. -/
abbrev Registry := List (String × VoiceConnection)

/-- The global session `dg`: its voice connection map, and the calls made on
the voice transport so far, oldest first. -/
structure Session where
  VoiceConnections : Registry
  trace : List Event
  deriving DecidableEq, Repr

/-- The Discord client library, as far as the program uses it.  The result of
each call may depend on the session it is made on. -/
structure Discord where
  /-- the call `s.State.Guild(guildID)` on the membership view -/
  Guild : String → Except GoError Guild
  /-- the call `s.ChannelVoiceJoin(guildID, vcID, false, true)`: the voice
  connection map it leaves behind and the error it returns -/
  ChannelVoiceJoin : Session → String → String → Registry × Option GoError
  /-- the error returned by `conn.Speaking(b)` -/
  Speaking : Session → VoiceConnection → Bool → Option GoError
  /-- the call `conn.Disconnect()`: the voice connection map it leaves behind
  and the error it returns -/
  Disconnect : Session → VoiceConnection → Registry × Option GoError

/-- The Ogg library: a packet decoder over the input bytes with internal
state `σ`. -/
structure OggLib (σ : Type) where
  /-- the decoder `ogg.NewPacketDecoder(ogg.NewDecoder(bytes.NewReader(in)))` -/
  NewPacketDecoder : List Nat → σ
  /-- one call `pd.Decode()`: the packet or the error, and the decoder
  afterwards -/
  Decode : σ → Except GoError Frame × σ

/-! ## The program -/

/-- The loop of `makeOGGBuffer`; `fuel` bounds the number of iterations. -/
def makeOGGBufferLoop {σ : Type} (L : OggLib σ) :
    Nat → σ → List Frame → Option (List Frame × Option GoError)
  | 0, _, _ => none
  | fuel + 1, pd, output =>
    match L.Decode pd with
    | (Except.error err, _) =>
      if !GoError.Is err GoError.EOF then
        some ([], some (GoError.wrap "error decode on PacketDecoder: " err))
      else
        some (output, none)
    | (Except.ok packet, pd1) => makeOGGBufferLoop L fuel pd1 (output ++ [packet])

/-- The function `makeOGGBuffer(in)`; `none` when `fuel` iterations did not
reach an error of the decoder. -/
def makeOGGBuffer {σ : Type} (L : OggLib σ) (fuel : Nat) (dat : List Nat) :
    Option (List Frame × Option GoError) :=
  makeOGGBufferLoop L fuel (L.NewPacketDecoder dat) []

/-- The loop of `voiceState` over `g.VoiceStates`. -/
def voiceStateLoop (userID : String) : List VoiceState → Except GoError VoiceState
  | [] => Except.error (GoError.errorf "error voice channel to join not found")
  | vs :: rest => if vs.UserID = userID then Except.ok vs else voiceStateLoop userID rest

/-- The function `voiceState(s, userID, guildID)`. -/
def voiceState (D : Discord) (userID guildID : String) : Except GoError VoiceState :=
  match D.Guild guildID with
  | Except.error err =>
    Except.error (GoError.errorf ("error find guild that the message post to: " ++ err.Error))
  | Except.ok g => voiceStateLoop userID g.VoiceStates

/-- The function `voiceConnection(guildID)`. -/
def voiceConnection (dg : Session) (guildID : String) : Option VoiceConnection :=
  dg.VoiceConnections.lookup guildID

/-- The function `joinVC(s, guildID, vcID)`, with `s` the global session as at
its only call site. -/
def joinVC (D : Discord) (dg : Session) (guildID vcID : String) : Session × Option GoError :=
  let request : Session × Option GoError :=
    let r := D.ChannelVoiceJoin dg guildID vcID
    let dg1 : Session :=
      { VoiceConnections := r.1, trace := dg.trace ++ [Event.ChannelVoiceJoin guildID vcID] }
    match r.2 with
    | some _ => (dg1, some (GoError.errorf ("error joining channel " ++ vcID ++ " of guild " ++ guildID)))
    | none => (dg1, none)
  match dg.VoiceConnections.lookup guildID with
  | some conn =>
    if conn.ChannelID = vcID then
      (dg, some (GoError.errorf
        ("error connecting to voice channel, bot is already joining target voice channel "
          ++ conn.ChannelID ++ " of guild " ++ conn.GuildID)))
    else request
  | none => request

/-- The call `conn.Speaking(b)`: the session afterwards and the error it
returns. -/
def speaking (D : Discord) (dg : Session) (conn : VoiceConnection) (b : Bool) :
    Session × Option GoError :=
  ({ dg with trace := dg.trace ++ [Event.Speaking conn b] }, D.Speaking dg conn b)

/-- The loop of `play` over `oggBuf`. -/
def sendAll (conn : VoiceConnection) : Session → List Frame → Session
  | dg, [] => dg
  | dg, buff :: rest =>
    sendAll conn { dg with trace := dg.trace ++ [Event.OpusSend conn buff] } rest

/-- The function `play(guildID, dat)`. -/
def play {σ : Type} (D : Discord) (L : OggLib σ) (fuel : Nat) (dg : Session)
    (guildID : String) (dat : List Nat) : Option (Session × Option GoError) :=
  match voiceConnection dg guildID with
  | none => some (dg, some (GoError.errorf ("error getting voice connection on guild " ++ guildID)))
  | some conn =>
    match makeOGGBuffer L fuel dat with
    | none => none
    | some (_, some err) => some (dg, some (GoError.wrap "error createing ogg buffer: " err))
    | some (oggBuf, none) =>
      -- an error of either Speaking call is logged and otherwise ignored
      let dg1 := (speaking D dg conn true).1
      let dg2 := sendAll conn dg1 oggBuf
      let dg3 := (speaking D dg2 conn false).1
      some (dg3, none)

/-- The session with the entry of `leaveVC(guildID)` recorded. -/
def entered (dg : Session) (guildID : String) : Session :=
  { dg with trace := dg.trace ++ [Event.leaveVCEntered guildID] }

/-- The function `leaveVC(guildID)`. -/
def leaveVC (D : Discord) (dg : Session) (guildID : String) : Session × Option GoError :=
  let dg0 : Session := entered dg guildID
  match dg0.VoiceConnections.lookup guildID with
  | none =>
    (dg0, some (GoError.errorf ("bot is not joining any of this guild voice channel " ++ guildID)))
  | some conn =>
    let r := D.Disconnect dg0 conn
    let dg1 : Session :=
      { VoiceConnections := r.1, trace := dg0.trace ++ [Event.Disconnect conn] }
    match r.2 with
    | some err =>
      (dg1, some (GoError.wrap ("error disconnect from voice channel " ++ conn.ChannelID ++ ": ") err))
    | none => (dg1, none)

/-- The function `do(fileName, s, m)`: the session it leaves behind.  `fs` is
the embedded file system (`fs.ReadFile`). -/
def do_ {σ : Type} (D : Discord) (L : OggLib σ) (fs : String → Except GoError (List Nat))
    (fuel : Nat) (dg : Session) (fileName : String) (m : MessageCreate) : Option Session :=
  match fs fileName with
  | Except.error _ => some dg
  | Except.ok b =>
    match voiceState D m.AuthorID m.GuildID with
    | Except.error _ => some dg
    | Except.ok vs =>
      match joinVC D dg m.GuildID vs.ChannelID with
      | (dg1, some _) => some dg1
      | (dg1, none) =>
        -- the deferred call of leaveVC runs on both exits below
        match play D L fuel dg1 m.GuildID b with
        | none => none
        | some (dg2, _) => some (leaveVC D dg2 m.GuildID).1

/-! ## Specification vocabulary -/

/-- The packet decoder, started in state `pd`, yields the packets `ps` one
after the other and then fails with the error `e`. -/
def Yields {σ : Type} (L : OggLib σ) : σ → List Frame → GoError → Prop
  | pd, [], e => (L.Decode pd).1 = Except.error e
  | pd, p :: ps, e => (L.Decode pd).1 = Except.ok p ∧ Yields L (L.Decode pd).2 ps e

/-- The number of times `leaveVC(guildID)` was entered in a trace. -/
def leaveCalls (guildID : String) (t : List Event) : Nat :=
  t.count (Event.leaveVCEntered guildID)

/-- The connect requests made in a trace. -/
def joinRequests (t : List Event) : List Event :=
  t.filter (fun ev => match ev with
    | Event.ChannelVoiceJoin _ _ => true
    | _ => false)

/-! ## Example libraries

Concrete instances of the two libraries, used to run the program on explicit
inputs. -/

/-- One `Decode` of a decoder for a length-prefixed container: each packet is
stored as its length followed by its bytes. -/
def toyDecode : List Nat → Except GoError Frame × List Nat
  | [] => (Except.error GoError.EOF, [])
  | n :: rest =>
    if n ≤ rest.length then (Except.ok (rest.take n), rest.drop n)
    else (Except.error (GoError.errorf "unexpected EOF"), [])

/-- The packet decoder of the length-prefixed container. -/
def toyOgg : OggLib (List Nat) where
  NewPacketDecoder := fun dat => dat
  Decode := toyDecode

/-- The registry without the entries of a guild. -/
def deleteGuild (guildID : String) (r : Registry) : Registry :=
  r.filter (fun kv => kv.1 != guildID)

/-- The membership view of the examples: user `U` sits in channel `general`
of guild `g1`. -/
def demoGuild (guildID : String) : Except GoError Guild :=
  if guildID = "g1" then Except.ok { VoiceStates := [{ UserID := "U", ChannelID := "general" }] }
  else Except.error (GoError.errorf "state cache not found")

/-- A client whose transport never fails: connecting registers the
connection under its guild, disconnecting deletes the entry of its guild. -/
def demoDiscord : Discord where
  Guild := demoGuild
  ChannelVoiceJoin := fun s guildID vcID =>
    ((guildID, { GuildID := guildID, ChannelID := vcID }) :: deleteGuild guildID s.VoiceConnections,
      none)
  Speaking := fun _ _ _ => none
  Disconnect := fun s conn => (deleteGuild conn.GuildID s.VoiceConnections, none)

/-- A client whose transport reports a failure on every call; disconnecting
still deletes the entry of the guild. -/
def flakyDiscord : Discord where
  Guild := demoGuild
  ChannelVoiceJoin := fun s _ _ => (s.VoiceConnections, some (GoError.errorf "timeout waiting for voice"))
  Speaking := fun _ _ _ => some (GoError.errorf "no VoiceConnection websocket")
  Disconnect := fun s conn =>
    (deleteGuild conn.GuildID s.VoiceConnections, some (GoError.errorf "websocket: close sent"))

/-- A client whose disconnect reports a failure and leaves the voice
connection map as it is. -/
def keepingDiscord : Discord where
  Guild := demoGuild
  ChannelVoiceJoin := fun s _ _ => (s.VoiceConnections, none)
  Speaking := fun _ _ _ => none
  Disconnect := fun s _ => (s.VoiceConnections, some (GoError.errorf "websocket: close sent"))

/-- The bundled sound assets of the examples: `yey` holds three packets,
`boo` is truncated inside its second packet. -/
def demoFS (fileName : String) : Except GoError (List Nat) :=
  if fileName = "sound/yey.opus" then Except.ok [2, 10, 11, 1, 20, 3, 30, 31, 32]
  else if fileName = "sound/boo.opus" then Except.ok [1, 7, 4, 8, 9]
  else Except.error (GoError.errorf "file does not exist")

/-- A session with no voice connection and no call made. -/
def idle : Session := { VoiceConnections := [], trace := [] }

/-- A session whose bot sits in channel `general` of guild `g1`. -/
def busy : Session :=
  { VoiceConnections := [("g1", { GuildID := "g1", ChannelID := "general" })], trace := [] }

end Yeeeeey

/-! ## Auxiliary lemmas -/

namespace Yeeeeey

/-- The loop of `makeOGGBuffer` on a decoder that yields `ps` and then fails
with `e`: with more than `ps.length` iterations allowed it returns, and what it
returns is decided by whether `e` is the end of the stream. -/
theorem makeOGGBufferLoop_of_yields {σ : Type} (L : OggLib σ) (e : GoError) :
    ∀ (ps : List Frame) (pd : σ) (acc : List Frame) (fuel : Nat),
      Yields L pd ps e → ps.length < fuel →
      makeOGGBufferLoop L fuel pd acc =
        if GoError.Is e GoError.EOF then some (acc ++ ps, none)
        else some ([], some (GoError.wrap "error decode on PacketDecoder: " e)) := by
  intro ps
  induction ps with
  | nil =>
    intro pd acc fuel hy hfuel
    cases fuel with
    | zero => simp at hfuel
    | succ n =>
      simp only [Yields] at hy
      rcases hd : L.Decode pd with ⟨r, pd1⟩
      rw [hd] at hy
      simp only at hy
      subst hy
      cases hIs : GoError.Is e GoError.EOF <;> simp [makeOGGBufferLoop, hd, hIs]
  | cons p ps ih =>
    intro pd acc fuel hy hfuel
    cases fuel with
    | zero => simp at hfuel
    | succ n =>
      simp only [Yields] at hy
      rcases hd : L.Decode pd with ⟨r, pd1⟩
      rw [hd] at hy
      simp only at hy
      obtain ⟨hr, hrest⟩ := hy
      subst hr
      have hlen : ps.length < n := by simpa using hfuel
      have hrec := ih pd1 (acc ++ [p]) n hrest hlen
      simp only [makeOGGBufferLoop, hd]
      rw [hrec]
      simp

/-- The loop of `play` appends one send per frame, in order. -/
theorem sendAll_trace (conn : VoiceConnection) :
    ∀ (frames : List Frame) (dg : Session),
      sendAll conn dg frames =
        { dg with trace := dg.trace ++ frames.map (Event.OpusSend conn) } := by
  intro frames
  induction frames with
  | nil => intro dg; simp [sendAll]
  | cons f rest ih =>
    intro dg
    simp only [sendAll]
    rw [ih]
    simp

/-- Sends are not entries of `leaveVC`. -/
theorem leaveCalls_sends (g : String) (conn : VoiceConnection) (frames : List Frame) :
    leaveCalls g (frames.map (Event.OpusSend conn)) = 0 := by
  unfold leaveCalls
  induction frames with
  | nil => simp
  | cons f rest ih => simp [List.count_cons, ih]

/-- The function `joinVC` does not enter `leaveVC`. -/
theorem joinVC_leaveCalls (D : Discord) (dg : Session) (guildID vcID g : String) :
    leaveCalls g (joinVC D dg guildID vcID).1.trace = leaveCalls g dg.trace := by
  unfold joinVC
  cases hl : dg.VoiceConnections.lookup guildID with
  | none =>
    cases hr : (D.ChannelVoiceJoin dg guildID vcID).2 <;>
      simp [hr, leaveCalls, List.count_cons]
  | some conn =>
    by_cases hc : conn.ChannelID = vcID
    · simp [hc]
    · cases hr : (D.ChannelVoiceJoin dg guildID vcID).2 <;>
        simp [hc, hr, leaveCalls, List.count_cons]

/-- The function `play` does not enter `leaveVC`. -/
theorem play_leaveCalls {σ : Type} (D : Discord) (L : OggLib σ) (fuel : Nat) (dg dg2 : Session)
    (guildID : String) (dat : List Nat) (r : Option GoError) (g : String)
    (h : play D L fuel dg guildID dat = some (dg2, r)) :
    leaveCalls g dg2.trace = leaveCalls g dg.trace := by
  unfold play at h
  cases hc : voiceConnection dg guildID with
  | none =>
    simp [hc] at h
    rw [← h.1]
  | some conn =>
    cases hm : makeOGGBuffer L fuel dat with
    | none => simp [hc, hm] at h
    | some res =>
      obtain ⟨out, err⟩ := res
      cases err with
      | some e =>
        simp [hc, hm] at h
        rw [← h.1]
      | none =>
        simp [hc, hm, speaking, sendAll_trace] at h
        rw [← h.1]
        have hs := leaveCalls_sends g conn out
        unfold leaveCalls at hs ⊢
        simp [List.count_cons, hs]

/-- The function `leaveVC` records its entry right after the calls made so
far, and makes at most the disconnect call after it. -/
theorem leaveVC_trace (D : Discord) (dg : Session) (guildID : String) :
    ∃ rest, (leaveVC D dg guildID).1.trace = dg.trace ++ Event.leaveVCEntered guildID :: rest ∧
      ∀ g, leaveCalls g rest = 0 := by
  unfold leaveVC
  cases hl : dg.VoiceConnections.lookup guildID with
  | none => exact ⟨[], by simp [entered, hl], by simp [leaveCalls]⟩
  | some conn =>
    refine ⟨[Event.Disconnect conn], ?_, by simp [leaveCalls, List.count_cons]⟩
    cases hr : (D.Disconnect (entered dg guildID) conn).2 <;>
      simp [entered, hl, hr] <;> simp [entered] at hr <;> simp [hr]

/-- Deleting a guild from the registry leaves no entry for it. -/
theorem lookup_deleteGuild (guildID : String) (r : Registry) :
    (deleteGuild guildID r).lookup guildID = none := by
  unfold deleteGuild
  induction r with
  | nil => simp
  | cons kv rest ih =>
    obtain ⟨k, v⟩ := kv
    by_cases hk : k = guildID
    · have hf : ((k, v).1 != guildID) = false := by simp [hk]
      rw [List.filter_cons, hf]
      exact ih
    · have hf : ((k, v).1 != guildID) = true := by simpa using hk
      have hne : (guildID == k) = false := by
        simpa using fun h => hk h.symm
      rw [List.filter_cons, hf]
      simp only [if_true, List.lookup_cons, hne]
      exact ih

/-! ## The demuxer -/

/-- C2: when the packet decoder of the input yields the packets `ps` and then
reports an error that is `io.EOF`, `makeOGGBuffer` returns, without error,
exactly `ps` in decoder order; for no packet at all this is the empty
sequence. -/
theorem makeOGGBuffer_clean_end {σ : Type} (L : OggLib σ) (dat : List Nat)
    (ps : List Frame) (e : GoError) (fuel : Nat)
    (hy : Yields L (L.NewPacketDecoder dat) ps e)
    (heof : GoError.Is e GoError.EOF = true)
    (hfuel : ps.length < fuel) :
    makeOGGBuffer L fuel dat = some (ps, none) := by
  unfold makeOGGBuffer
  rw [makeOGGBufferLoop_of_yields L e ps _ [] fuel hy hfuel]
  simp [heof]

/-- Witness of C2 on the three-packet asset. -/
theorem makeOGGBuffer_clean_end_witness :
    Yields toyOgg (toyOgg.NewPacketDecoder [2, 10, 11, 1, 20, 3, 30, 31, 32])
        [[10, 11], [20], [30, 31, 32]] GoError.EOF ∧
      makeOGGBuffer toyOgg 4 [2, 10, 11, 1, 20, 3, 30, 31, 32]
        = some ([[10, 11], [20], [30, 31, 32]], none) ∧
      makeOGGBuffer toyOgg 1 [] = some ([], none) :=
  ⟨by simp [Yields, toyOgg, toyDecode],
   makeOGGBuffer_clean_end toyOgg [2, 10, 11, 1, 20, 3, 30, 31, 32]
     [[10, 11], [20], [30, 31, 32]] GoError.EOF 4
     (by simp [Yields, toyOgg, toyDecode]) (by decide) (by decide),
   makeOGGBuffer_clean_end toyOgg [] [] GoError.EOF 1
     (by simp [Yields, toyOgg, toyDecode]) (by decide) (by decide)⟩

/-- C3: when the packet decoder of the input yields the packets `ps` and then
reports an error `e` that is not `io.EOF`, `makeOGGBuffer` returns no frame
and an error that wraps `e`. -/
theorem makeOGGBuffer_decode_failure {σ : Type} (L : OggLib σ) (dat : List Nat)
    (ps : List Frame) (e : GoError) (fuel : Nat)
    (hy : Yields L (L.NewPacketDecoder dat) ps e)
    (hne : GoError.Is e GoError.EOF = false)
    (hfuel : ps.length < fuel) :
    ∃ err, makeOGGBuffer L fuel dat = some ([], some err) ∧
      err = GoError.wrap "error decode on PacketDecoder: " e ∧
      err.Unwrap = some e ∧ GoError.Is err e = true := by
  refine ⟨GoError.wrap "error decode on PacketDecoder: " e, ?_, rfl, rfl, ?_⟩
  · unfold makeOGGBuffer
    rw [makeOGGBufferLoop_of_yields L e ps _ [] fuel hy hfuel]
    simp [hne]
  · cases e <;> simp [GoError.Is]

/-- Witness of C3 on the asset truncated inside its second packet. -/
theorem makeOGGBuffer_decode_failure_witness :
    Yields toyOgg (toyOgg.NewPacketDecoder [1, 7, 4, 8, 9]) [[7]]
        (GoError.errorf "unexpected EOF") ∧
      ∃ err, makeOGGBuffer toyOgg 2 [1, 7, 4, 8, 9] = some ([], some err) ∧
        err = GoError.wrap "error decode on PacketDecoder: " (GoError.errorf "unexpected EOF") ∧
        err.Unwrap = some (GoError.errorf "unexpected EOF") ∧
        GoError.Is err (GoError.errorf "unexpected EOF") = true :=
  ⟨by simp [Yields, toyOgg, toyDecode],
   makeOGGBuffer_decode_failure toyOgg [1, 7, 4, 8, 9] [[7]] (GoError.errorf "unexpected EOF") 2
     (by simp [Yields, toyOgg, toyDecode]) (by decide) (by decide)⟩

/-! ## The playback streamer -/

/-- C1: when the registry holds a connection for the guild and decoding the
asset succeeds with `frames`, `play` returns success, and the calls it makes
are exactly: speaking on, one send per frame in decode order, speaking off;
this for every client, whatever its speaking calls report. -/
theorem play_streams_in_order {σ : Type} (D : Discord) (L : OggLib σ) (fuel : Nat)
    (dg : Session) (guildID : String) (dat : List Nat) (conn : VoiceConnection)
    (frames : List Frame)
    (hconn : voiceConnection dg guildID = some conn)
    (hdec : makeOGGBuffer L fuel dat = some (frames, none)) :
    play D L fuel dg guildID dat =
      some ({ VoiceConnections := dg.VoiceConnections,
              trace := dg.trace ++ ([Event.Speaking conn true]
                ++ frames.map (Event.OpusSend conn) ++ [Event.Speaking conn false]) },
            none) := by
  simp [play, hconn, hdec, speaking, sendAll_trace]

/-- Witness of C1 on a client whose speaking calls both fail. -/
theorem play_streams_in_order_witness :
    flakyDiscord.Speaking busy { GuildID := "g1", ChannelID := "general" } true ≠ none ∧
      play flakyDiscord toyOgg 4 busy "g1" [2, 10, 11, 1, 20, 3, 30, 31, 32] =
        some ({ VoiceConnections := busy.VoiceConnections,
                trace := busy.trace ++ ([Event.Speaking { GuildID := "g1", ChannelID := "general" } true]
                  ++ [[10, 11], [20], [30, 31, 32]].map
                      (Event.OpusSend { GuildID := "g1", ChannelID := "general" })
                  ++ [Event.Speaking { GuildID := "g1", ChannelID := "general" } false]) },
              none) :=
  ⟨by decide,
   play_streams_in_order flakyDiscord toyOgg 4 busy "g1" [2, 10, 11, 1, 20, 3, 30, 31, 32]
     { GuildID := "g1", ChannelID := "general" } [[10, 11], [20], [30, 31, 32]]
     (by decide) (by decide)⟩

/-! ## The connection lifecycle: joining -/

/-- C5: when the registry holds a connection for the guild and that
connection is on the target channel, `joinVC` fails with the error that names
the channel and guild already joined, the session is unchanged (no connect
request, same registry), and the registry still holds that connection. -/
theorem joinVC_already_connected (D : Discord) (dg : Session) (guildID vcID : String)
    (conn : VoiceConnection)
    (hreg : dg.VoiceConnections.lookup guildID = some conn)
    (hch : conn.ChannelID = vcID) :
    joinVC D dg guildID vcID =
        (dg, some (GoError.errorf
          ("error connecting to voice channel, bot is already joining target voice channel "
            ++ conn.ChannelID ++ " of guild " ++ conn.GuildID))) ∧
      joinRequests (joinVC D dg guildID vcID).1.trace = joinRequests dg.trace ∧
      (joinVC D dg guildID vcID).1.VoiceConnections.lookup guildID = some conn := by
  have h : joinVC D dg guildID vcID =
      (dg, some (GoError.errorf
        ("error connecting to voice channel, bot is already joining target voice channel "
          ++ conn.ChannelID ++ " of guild " ++ conn.GuildID))) := by
    simp [joinVC, hreg, hch]
  rw [h]
  exact ⟨rfl, rfl, hreg⟩

/-- Witness of C5: a second join of channel `general` of guild `g1`. -/
theorem joinVC_already_connected_witness :
    joinVC demoDiscord busy "g1" "general" =
        (busy, some (GoError.errorf
          ("error connecting to voice channel, bot is already joining target voice channel "
            ++ "general" ++ " of guild " ++ "g1"))) ∧
      joinRequests (joinVC demoDiscord busy "g1" "general").1.trace = joinRequests busy.trace ∧
      (joinVC demoDiscord busy "g1" "general").1.VoiceConnections.lookup "g1"
        = some { GuildID := "g1", ChannelID := "general" } :=
  joinVC_already_connected demoDiscord busy "g1" "general"
    { GuildID := "g1", ChannelID := "general" } (by decide) (by decide)

/-- C6, as stated, fails: with the bot in channel `general` of guild `g1`, a
join of channel `other` of the same guild is not rejected; the connect request
is made and the call succeeds. -/
theorem joinVC_other_channel_not_rejected :
    busy.VoiceConnections.lookup "g1" = some { GuildID := "g1", ChannelID := "general" } ∧
      (joinVC demoDiscord busy "g1" "other").2 = none ∧
      (joinVC demoDiscord busy "g1" "other").1.trace = [Event.ChannelVoiceJoin "g1" "other"] := by
  decide

/-- C6, amended: when the registry holds a connection for the guild, `joinVC`
fails without a connect request exactly when that connection is on the target
channel; when it is on another channel `joinVC` makes the connect request, and
fails only if the transport does. -/
theorem joinVC_existing_connection (D : Discord) (dg : Session) (guildID vcID : String)
    (conn : VoiceConnection)
    (hreg : dg.VoiceConnections.lookup guildID = some conn) :
    (conn.ChannelID = vcID →
        (joinVC D dg guildID vcID).2 ≠ none ∧ (joinVC D dg guildID vcID).1 = dg) ∧
      (conn.ChannelID ≠ vcID →
        (joinVC D dg guildID vcID).1.trace = dg.trace ++ [Event.ChannelVoiceJoin guildID vcID] ∧
        ((joinVC D dg guildID vcID).2 = none ↔ (D.ChannelVoiceJoin dg guildID vcID).2 = none)) := by
  constructor
  · intro hch
    simp [joinVC, hreg, hch]
  · intro hch
    cases hr : (D.ChannelVoiceJoin dg guildID vcID).2 <;> simp [joinVC, hreg, hch, hr]

/-- Witness of amended C6 on both channels of guild `g1`. -/
theorem joinVC_existing_connection_witness :
    ((joinVC demoDiscord busy "g1" "general").2 ≠ none ∧
        (joinVC demoDiscord busy "g1" "general").1 = busy) ∧
      ((joinVC demoDiscord busy "g1" "other").1.trace
          = busy.trace ++ [Event.ChannelVoiceJoin "g1" "other"] ∧
        ((joinVC demoDiscord busy "g1" "other").2 = none ↔
          (demoDiscord.ChannelVoiceJoin busy "g1" "other").2 = none)) :=
  ⟨(joinVC_existing_connection demoDiscord busy "g1" "general"
      { GuildID := "g1", ChannelID := "general" } (by decide)).1 (by decide),
   (joinVC_existing_connection demoDiscord busy "g1" "other"
      { GuildID := "g1", ChannelID := "general" } (by decide)).2 (by decide)⟩

/-- C10 fails on the code: with nothing registered and a transport whose
connect request fails with the cause `timeout waiting for voice`, `joinVC`
returns an error that has nothing to unwrap and whose text does not contain
the cause. -/
theorem joinVC_drops_cause :
    (flakyDiscord.ChannelVoiceJoin idle "g1" "c1").2
        = some (GoError.errorf "timeout waiting for voice") ∧
      (joinVC flakyDiscord idle "g1" "c1").2
        = some (GoError.errorf "error joining channel c1 of guild g1") ∧
      (GoError.errorf "error joining channel c1 of guild g1").Unwrap = none ∧
      GoError.Is (GoError.errorf "error joining channel c1 of guild g1")
        (GoError.errorf "timeout waiting for voice") = false := by
  decide

/-! ## The connection lifecycle: resolving the voice state -/

/-- The loop of `voiceState` fails exactly when no entry has the user. -/
theorem voiceStateLoop_error_iff (userID : String) (l : List VoiceState) :
    (∃ e, voiceStateLoop userID l = Except.error e) ↔ ∀ vs ∈ l, vs.UserID ≠ userID := by
  induction l with
  | nil => simp [voiceStateLoop]
  | cons v rest ih =>
    by_cases hv : v.UserID = userID
    · simp [voiceStateLoop, hv]
    · simp [voiceStateLoop, hv, ih]

/-- The only error of the loop of `voiceState`. -/
theorem voiceStateLoop_error (userID : String) (l : List VoiceState) (e : GoError)
    (h : voiceStateLoop userID l = Except.error e) :
    e = GoError.errorf "error voice channel to join not found" := by
  induction l with
  | nil =>
    simp [voiceStateLoop] at h
    exact h.symm
  | cons v rest ih =>
    by_cases hv : v.UserID = userID
    · simp [voiceStateLoop, hv] at h
    · simp [voiceStateLoop, hv] at h
      exact ih h

/-- The loop of `voiceState` returns the first entry that has the user. -/
theorem voiceStateLoop_ok_iff (userID : String) (l : List VoiceState) (vs : VoiceState) :
    voiceStateLoop userID l = Except.ok vs ↔
      ∃ pre post, l = pre ++ vs :: post ∧ vs.UserID = userID ∧
        ∀ x ∈ pre, x.UserID ≠ userID := by
  induction l with
  | nil => simp [voiceStateLoop]
  | cons v rest ih =>
    by_cases hv : v.UserID = userID
    · simp only [voiceStateLoop, hv, if_true]
      constructor
      · intro h
        have hvs : v = vs := by simpa using h
        subst hvs
        exact ⟨[], rest, rfl, hv, by simp⟩
      · rintro ⟨pre, post, hl, _, hpre⟩
        cases pre with
        | nil =>
          simp at hl
          rw [hl.1]
        | cons x pre1 =>
          simp at hl
          exact absurd (hl.1 ▸ hv) (hpre x (by simp))
    · simp only [voiceStateLoop, hv, if_false, ih]
      constructor
      · rintro ⟨pre, post, hl, hu, hpre⟩
        refine ⟨v :: pre, post, by simp [hl], hu, ?_⟩
        intro x hx
        rcases List.mem_cons.mp hx with hx | hx
        · rw [hx]; exact hv
        · exact hpre x hx
      · rintro ⟨pre, post, hl, hu, hpre⟩
        cases pre with
        | nil =>
          simp at hl
          exact absurd (hl.1 ▸ hu) hv
        | cons x pre1 =>
          simp at hl
          exact ⟨pre1, post, hl.2, hu, fun y hy => hpre y (by simp [hy])⟩

/-- C7: for a guild whose membership view is found, `voiceState` fails exactly
when no entry of the view has the user, and then with the error that no voice
channel was found; otherwise it returns the first entry that has the user.
When `voiceState` fails, `do` leaves the session as it was: no connect request
and the same registry. -/
theorem voiceState_first_match (D : Discord) (userID guildID : String) (g : Guild)
    (hg : D.Guild guildID = Except.ok g) :
    ((∃ e, voiceState D userID guildID = Except.error e) ↔
        ∀ vs ∈ g.VoiceStates, vs.UserID ≠ userID) ∧
      (∀ e, voiceState D userID guildID = Except.error e →
        e = GoError.errorf "error voice channel to join not found") ∧
      (∀ vs, voiceState D userID guildID = Except.ok vs ↔
        ∃ pre post, g.VoiceStates = pre ++ vs :: post ∧ vs.UserID = userID ∧
          ∀ x ∈ pre, x.UserID ≠ userID) ∧
      (∀ (σ : Type) (L : OggLib σ) (fs : String → Except GoError (List Nat)) (fuel : Nat)
          (dg : Session) (fileName : String) (m : MessageCreate) (e : GoError),
        m.AuthorID = userID → m.GuildID = guildID →
        voiceState D userID guildID = Except.error e →
        do_ D L fs fuel dg fileName m = some dg) := by
  have hv : voiceState D userID guildID = voiceStateLoop userID g.VoiceStates := by
    simp [voiceState, hg]
  refine ⟨?_, ?_, ?_, ?_⟩
  · rw [hv]; exact voiceStateLoop_error_iff userID g.VoiceStates
  · intro e he
    rw [hv] at he
    exact voiceStateLoop_error userID g.VoiceStates e he
  · intro vs
    rw [hv]; exact voiceStateLoop_ok_iff userID g.VoiceStates vs
  · intro σ L fs fuel dg fileName m e hu hgid he
    unfold do_
    cases fs fileName with
    | error _ => rfl
    | ok b => simp [hu, hgid, he]

/-- Witness of C7 on guild `g1`: user `U` is found, user `V` is not, and a
request of `V` leaves the session as it was. -/
theorem voiceState_first_match_witness :
    voiceState demoDiscord "U" "g1" = Except.ok { UserID := "U", ChannelID := "general" } ∧
      ((∃ e, voiceState demoDiscord "V" "g1" = Except.error e) ↔
        ∀ vs ∈ [({ UserID := "U", ChannelID := "general" } : VoiceState)], vs.UserID ≠ "V") ∧
      do_ demoDiscord toyOgg demoFS 4 idle "sound/yey.opus" { AuthorID := "V", GuildID := "g1" }
        = some idle :=
  ⟨((voiceState_first_match demoDiscord "U" "g1"
      { VoiceStates := [{ UserID := "U", ChannelID := "general" }] } (by decide)).2.2.1
      { UserID := "U", ChannelID := "general" }).mpr ⟨[], [], rfl, rfl, by simp⟩,
   (voiceState_first_match demoDiscord "V" "g1"
      { VoiceStates := [{ UserID := "U", ChannelID := "general" }] } (by decide)).1,
   (voiceState_first_match demoDiscord "V" "g1"
      { VoiceStates := [{ UserID := "U", ChannelID := "general" }] } (by decide)).2.2.2
      (List Nat) toyOgg demoFS 4 idle "sound/yey.opus" { AuthorID := "V", GuildID := "g1" }
      (GoError.errorf "error voice channel to join not found") rfl rfl (by decide)⟩

/-! ## The connection lifecycle: leaving -/

/-- C8, as stated, fails: `leaveVC` has no deregistration of its own.  With
the bot in channel `general` of guild `g1` and a transport whose disconnect
fails and leaves the voice connection map alone, `leaveVC` makes its
disconnect call, returns the failure, and the registry still holds the entry
of `g1`. -/
theorem leaveVC_entry_kept :
    busy.VoiceConnections.lookup "g1" = some { GuildID := "g1", ChannelID := "general" } ∧
      (leaveVC keepingDiscord busy "g1").1.trace
        = [Event.leaveVCEntered "g1",
            Event.Disconnect { GuildID := "g1", ChannelID := "general" }] ∧
      (leaveVC keepingDiscord busy "g1").2
        = some (GoError.wrap "error disconnect from voice channel general: "
            (GoError.errorf "websocket: close sent")) ∧
      (leaveVC keepingDiscord busy "g1").1.VoiceConnections.lookup "g1"
        = some { GuildID := "g1", ChannelID := "general" } := by
  decide

/-- C8, amended: when the registry holds a connection for the guild, `leaveVC`
makes exactly one transport call, the disconnect of that connection; it
returns the failure of the disconnect, wrapped, when there is one and success
otherwise; and it changes nothing of the registry itself: the registry
afterwards is the one the disconnect leaves, so it holds no entry for the
guild exactly when the disconnect removed it, failure or not. -/
theorem leaveVC_disconnects (D : Discord) (dg : Session) (guildID : String)
    (conn : VoiceConnection)
    (hreg : dg.VoiceConnections.lookup guildID = some conn) :
    (leaveVC D dg guildID).1.trace
        = dg.trace ++ [Event.leaveVCEntered guildID, Event.Disconnect conn] ∧
      (leaveVC D dg guildID).1.VoiceConnections
        = (D.Disconnect (entered dg guildID) conn).1 ∧
      ((leaveVC D dg guildID).1.VoiceConnections.lookup guildID = none ↔
        (D.Disconnect (entered dg guildID) conn).1.lookup guildID = none) ∧
      (∀ e, (D.Disconnect (entered dg guildID) conn).2 = some e →
        (leaveVC D dg guildID).2
          = some (GoError.wrap ("error disconnect from voice channel " ++ conn.ChannelID ++ ": ") e)) ∧
      ((D.Disconnect (entered dg guildID) conn).2 = none →
        (leaveVC D dg guildID).2 = none) := by
  have hreg1 : (entered dg guildID).VoiceConnections.lookup guildID = some conn := hreg
  have htr : (entered dg guildID).trace = dg.trace ++ [Event.leaveVCEntered guildID] := rfl
  unfold leaveVC
  cases hr : (D.Disconnect (entered dg guildID) conn).2 with
  | none => simp [hreg1, hr, htr]
  | some err => simp [hreg1, hr, htr]

/-- Witness of amended C8 on a transport whose disconnect reports a failure
and deletes the entry of the guild. -/
theorem leaveVC_disconnects_witness :
    (leaveVC flakyDiscord busy "g1").1.trace
        = busy.trace ++ [Event.leaveVCEntered "g1",
            Event.Disconnect { GuildID := "g1", ChannelID := "general" }] ∧
      (leaveVC flakyDiscord busy "g1").1.VoiceConnections.lookup "g1" = none ∧
      (leaveVC flakyDiscord busy "g1").2
        = some (GoError.wrap ("error disconnect from voice channel " ++ "general" ++ ": ")
            (GoError.errorf "websocket: close sent")) :=
  have h := leaveVC_disconnects flakyDiscord busy "g1" { GuildID := "g1", ChannelID := "general" }
    (by decide)
  ⟨h.1, h.2.2.1.mpr (lookup_deleteGuild "g1" (entered busy "g1").VoiceConnections),
    h.2.2.2.1 (GoError.errorf "websocket: close sent") (by decide)⟩

/-! ## The request routine -/

/-- C4: once `joinVC` has succeeded, `do` runs `leaveVC` for the guild on the
session `play` leaves behind, on each exit: `play` finds no connection,
decoding fails, `play` succeeds; whenever `play` returns, `leaveVC` is entered
exactly once, after every call of `play`.  When `voiceState` or `joinVC` fails,
`do` returns without entering `leaveVC`. -/
theorem do_leaves_iff_joined {σ : Type} (D : Discord) (L : OggLib σ)
    (fs : String → Except GoError (List Nat)) (fuel : Nat) (dg : Session)
    (fileName : String) (m : MessageCreate) :
    (∀ e, voiceState D m.AuthorID m.GuildID = Except.error e →
        ∃ s, do_ D L fs fuel dg fileName m = some s ∧
          ∀ g, leaveCalls g s.trace = leaveCalls g dg.trace) ∧
      (∀ vs dg1 e, voiceState D m.AuthorID m.GuildID = Except.ok vs →
        joinVC D dg m.GuildID vs.ChannelID = (dg1, some e) →
        ∃ s, do_ D L fs fuel dg fileName m = some s ∧
          ∀ g, leaveCalls g s.trace = leaveCalls g dg.trace) ∧
      (∀ b vs dg1, fs fileName = Except.ok b →
        voiceState D m.AuthorID m.GuildID = Except.ok vs →
        joinVC D dg m.GuildID vs.ChannelID = (dg1, none) →
        (voiceConnection dg1 m.GuildID = none →
          ∃ e, play D L fuel dg1 m.GuildID b = some (dg1, some e) ∧
            do_ D L fs fuel dg fileName m = some (leaveVC D dg1 m.GuildID).1) ∧
        (∀ conn out err, voiceConnection dg1 m.GuildID = some conn →
          makeOGGBuffer L fuel b = some (out, some err) →
          ∃ e, play D L fuel dg1 m.GuildID b = some (dg1, some e) ∧
            do_ D L fs fuel dg fileName m = some (leaveVC D dg1 m.GuildID).1) ∧
        (∀ conn frames, voiceConnection dg1 m.GuildID = some conn →
          makeOGGBuffer L fuel b = some (frames, none) →
          ∃ dg2, play D L fuel dg1 m.GuildID b = some (dg2, none) ∧
            do_ D L fs fuel dg fileName m = some (leaveVC D dg2 m.GuildID).1) ∧
        (∀ dg2 r, play D L fuel dg1 m.GuildID b = some (dg2, r) →
          ∃ s rest, do_ D L fs fuel dg fileName m = some s ∧
            s.trace = dg2.trace ++ Event.leaveVCEntered m.GuildID :: rest ∧
            leaveCalls m.GuildID s.trace = leaveCalls m.GuildID dg.trace + 1)) := by
  refine ⟨?_, ?_, ?_⟩
  · intro e he
    refine ⟨dg, ?_, fun _ => rfl⟩
    unfold do_
    cases fs fileName with
    | error _ => rfl
    | ok b => simp [he]
  · intro vs dg1 e hvs hjoin
    cases hfs : fs fileName with
    | error _ => exact ⟨dg, by simp [do_, hfs], fun _ => rfl⟩
    | ok b =>
      refine ⟨dg1, by simp [do_, hfs, hvs, hjoin], ?_⟩
      intro g
      have h := joinVC_leaveCalls D dg m.GuildID vs.ChannelID g
      rw [hjoin] at h
      exact h
  · intro b vs dg1 hfs hvs hjoin
    have hdo : ∀ dg2 r, play D L fuel dg1 m.GuildID b = some (dg2, r) →
        do_ D L fs fuel dg fileName m = some (leaveVC D dg2 m.GuildID).1 := by
      intro dg2 r hp
      simp [do_, hfs, hvs, hjoin, hp]
    refine ⟨?_, ?_, ?_, ?_⟩
    · intro hc
      have hp : play D L fuel dg1 m.GuildID b = some (dg1, some (GoError.errorf
          ("error getting voice connection on guild " ++ m.GuildID))) := by
        simp [play, hc]
      exact ⟨_, hp, hdo _ _ hp⟩
    · intro conn out err hc hdec
      have hp : play D L fuel dg1 m.GuildID b
          = some (dg1, some (GoError.wrap "error createing ogg buffer: " err)) := by
        simp [play, hc, hdec]
      exact ⟨_, hp, hdo _ _ hp⟩
    · intro conn frames hc hdec
      have hp := play_streams_in_order D L fuel dg1 m.GuildID b conn frames hc hdec
      exact ⟨_, hp, hdo _ _ hp⟩
    · intro dg2 r hp
      obtain ⟨rest, htr, hz⟩ := leaveVC_trace D dg2 m.GuildID
      refine ⟨(leaveVC D dg2 m.GuildID).1, rest, hdo _ _ hp, htr, ?_⟩
      have h1 := joinVC_leaveCalls D dg m.GuildID vs.ChannelID m.GuildID
      rw [hjoin] at h1
      have h2 := play_leaveCalls D L fuel dg1 dg2 m.GuildID b r m.GuildID hp
      have h3 := hz m.GuildID
      rw [htr]
      simp only at h1
      unfold leaveCalls at h1 h2 h3 ⊢
      rw [List.count_append, List.count_cons_self, h3, h2, h1]

/-- Witness of C4: a request on the truncated asset joins, fails to decode and
leaves; a request of a user in no voice channel never enters `leaveVC`. -/
theorem do_leaves_iff_joined_witness :
    (∃ s rest, do_ demoDiscord toyOgg demoFS 4 idle "sound/boo.opus"
          { AuthorID := "U", GuildID := "g1" } = some s ∧
        s.trace = [Event.ChannelVoiceJoin "g1" "general"] ++ Event.leaveVCEntered "g1" :: rest ∧
        leaveCalls "g1" s.trace = leaveCalls "g1" idle.trace + 1) ∧
      (∃ s, do_ demoDiscord toyOgg demoFS 4 idle "sound/yey.opus"
          { AuthorID := "V", GuildID := "g1" } = some s ∧
        ∀ g, leaveCalls g s.trace = leaveCalls g idle.trace) :=
  ⟨((do_leaves_iff_joined demoDiscord toyOgg demoFS 4 idle "sound/boo.opus"
        { AuthorID := "U", GuildID := "g1" }).2.2
        [1, 7, 4, 8, 9] { UserID := "U", ChannelID := "general" }
        { VoiceConnections := [("g1", { GuildID := "g1", ChannelID := "general" })],
          trace := [Event.ChannelVoiceJoin "g1" "general"] }
        (by decide) (by decide) (by decide)).2.2.2
      { VoiceConnections := [("g1", { GuildID := "g1", ChannelID := "general" })],
        trace := [Event.ChannelVoiceJoin "g1" "general"] }
      (some (GoError.wrap "error createing ogg buffer: "
        (GoError.wrap "error decode on PacketDecoder: " (GoError.errorf "unexpected EOF"))))
      (by decide),
   (do_leaves_iff_joined demoDiscord toyOgg demoFS 4 idle "sound/yey.opus"
      { AuthorID := "V", GuildID := "g1" }).1
      (GoError.errorf "error voice channel to join not found") (by decide)⟩

/-- C9, as stated, fails: on the truncated asset decoding fails, yet the
request has by then joined channel `general` of guild `g1`; the connect
request is the first call of the trace, before the cleanup. -/
theorem decode_failure_after_join :
    makeOGGBuffer toyOgg 4 [1, 7, 4, 8, 9]
        = some ([], some (GoError.wrap "error decode on PacketDecoder: "
            (GoError.errorf "unexpected EOF"))) ∧
      do_ demoDiscord toyOgg demoFS 4 idle "sound/boo.opus" { AuthorID := "U", GuildID := "g1" }
        = some { VoiceConnections := [],
                 trace := [Event.ChannelVoiceJoin "g1" "general", Event.leaveVCEntered "g1",
                   Event.Disconnect { GuildID := "g1", ChannelID := "general" }] } := by
  decide

/-- C9, amended: when the asset of a request fails to decode, `play` returns
an error wrapping the decode error and leaves the session as it found it (no
speaking call, no frame sent); the connect request of the request has been
made before, by `joinVC`, and `do` then runs `leaveVC`. -/
theorem play_decode_failure {σ : Type} (D : Discord) (L : OggLib σ)
    (fs : String → Except GoError (List Nat)) (fuel : Nat) (dg dg1 : Session)
    (fileName : String) (m : MessageCreate) (b : List Nat) (vs : VoiceState)
    (conn : VoiceConnection) (out : List Frame) (err : GoError)
    (hfs : fs fileName = Except.ok b)
    (hvs : voiceState D m.AuthorID m.GuildID = Except.ok vs)
    (hjoin : joinVC D dg m.GuildID vs.ChannelID = (dg1, none))
    (hconn : voiceConnection dg1 m.GuildID = some conn)
    (hdec : makeOGGBuffer L fuel b = some (out, some err)) :
    play D L fuel dg1 m.GuildID b
        = some (dg1, some (GoError.wrap "error createing ogg buffer: " err)) ∧
      (GoError.wrap "error createing ogg buffer: " err).Unwrap = some err ∧
      dg1.trace = dg.trace ++ [Event.ChannelVoiceJoin m.GuildID vs.ChannelID] ∧
      do_ D L fs fuel dg fileName m = some (leaveVC D dg1 m.GuildID).1 := by
  have hp : play D L fuel dg1 m.GuildID b
      = some (dg1, some (GoError.wrap "error createing ogg buffer: " err)) := by
    simp [play, hconn, hdec]
  refine ⟨hp, rfl, ?_, by simp [do_, hfs, hvs, hjoin, hp]⟩
  unfold joinVC at hjoin
  cases hl : dg.VoiceConnections.lookup m.GuildID with
  | none =>
    cases hr : (D.ChannelVoiceJoin dg m.GuildID vs.ChannelID).2 with
    | none =>
      simp [hl, hr] at hjoin
      rw [← hjoin]
    | some e => simp [hl, hr] at hjoin
  | some c =>
    by_cases hc : c.ChannelID = vs.ChannelID
    · simp [hl, hc] at hjoin
    · cases hr : (D.ChannelVoiceJoin dg m.GuildID vs.ChannelID).2 with
      | none =>
        simp [hl, hc, hr] at hjoin
        rw [← hjoin]
      | some e => simp [hl, hc, hr] at hjoin

/-- Witness of amended C9 on the truncated asset. -/
theorem play_decode_failure_witness :
    play demoDiscord toyOgg 4
        { VoiceConnections := [("g1", { GuildID := "g1", ChannelID := "general" })],
          trace := [Event.ChannelVoiceJoin "g1" "general"] } "g1" [1, 7, 4, 8, 9]
        = some ({ VoiceConnections := [("g1", { GuildID := "g1", ChannelID := "general" })],
                  trace := [Event.ChannelVoiceJoin "g1" "general"] },
            some (GoError.wrap "error createing ogg buffer: "
              (GoError.wrap "error decode on PacketDecoder: " (GoError.errorf "unexpected EOF")))) :=
  (play_decode_failure demoDiscord toyOgg demoFS 4 idle
    { VoiceConnections := [("g1", { GuildID := "g1", ChannelID := "general" })],
      trace := [Event.ChannelVoiceJoin "g1" "general"] }
    "sound/boo.opus" { AuthorID := "U", GuildID := "g1" } [1, 7, 4, 8, 9]
    { UserID := "U", ChannelID := "general" } { GuildID := "g1", ChannelID := "general" } []
    (GoError.wrap "error decode on PacketDecoder: " (GoError.errorf "unexpected EOF"))
    (by decide) (by decide) (by decide) (by decide) (by decide)).1

end Yeeeeey
